import Mathlib

/-!
Shallow embedding of the carbon-arbitrage pipeline (`carbonarb.py`) over ℚ.

A dataset row carries a scenario identifier, a variable name, and a value
for each calendar-year column.  The pipeline interpolates two time series
per scenario on the 5-year grid 2010, 2015, ..., 2100, sums the
interpolated annual values over 2023..2100 (with discounting for the
production series), and combines two scenarios with three price
parameters into cost, benefit, and net arbitrage.
-/

namespace CarbonArb

/-- One row of the NGFS-style dataset: scenario identifier, variable name,
and the numeric value found in each calendar-year column. -/
structure Row where
  Scenario : String
  Variable : String
  data : ℕ → ℚ

/-- Helper function for discount rate calculation (`calculate_rho`). -/
def calculate_rho (beta : ℚ) : ℚ :=
  let rho_f : ℚ := 0.0208
  let carp : ℚ := 0.0299 - 0.01
  let _lambda : ℚ := 0.5175273490449868
  let tax_rate : ℚ := 0.15
  _lambda * rho_f * (1 - tax_rate) + (1 - _lambda) * (rho_f + beta * carp)

/-- Discount factor for `deltat` years ahead at rate `rho`. -/
def calculate_discount (rho : ℚ) (deltat : ℕ) : ℚ :=
  (1 + rho) ^ (-(deltat : ℤ))

/-- Convert exajoules (EJ) to megawatt-hours (MWh). -/
def EJ2MWh (x : ℚ) : ℚ :=
  x * 1e18 / 3600 / 1e6

/-- Convert exajoules (EJ) to million tonnes of coal (approx). -/
def EJ2Mcoal (x : ℚ) : ℚ :=
  x * 1e9 / 29.3076 / 1e6

/-- The 5-year sample grid 2010, 2015, ..., 2100 (19 points). -/
def years_5_step : List ℕ := List.range' 2010 19 5

/-- The integer query years 2023..2100 inclusive (78 years). -/
def full_years : List ℕ := List.range' 2023 78

/-- Piecewise-linear interpolation over the 5-year grid: for a query year
`y`, locate the enclosing 5-year segment and interpolate linearly between
its endpoint values (the embedding of `interp1d(years_5_step, values)`
evaluated at integer years of the sample domain). -/
def interp5 (vals : ℕ → ℚ) (y : ℕ) : ℚ :=
  let k := (y - 2010) / 5
  let y0 := 2010 + 5 * k
  vals y0 + (vals (y0 + 5) - vals y0) * ((y : ℚ) - (y0 : ℚ)) / 5

/-- Row lookup: filter the dataset by scenario identifier, then by variable
name, and take the first match (the embedding of
`df[df.Scenario == s][df.Variable == v].iloc[0]`, made total with `Option`). -/
def lookupRow (df : List Row) (scenario varname : String) : Option Row :=
  ((df.filter (fun r => r.Scenario == scenario)).filter
    (fun r => r.Variable == varname)).head?

/-- The emissions interpolant of a row: column values are divided by `1e3`
before interpolation. -/
def emissions_interp (row : Row) : ℕ → ℚ :=
  interp5 (fun y => row.data y / 1e3)

/-- The production interpolant of a row: column values are used as-is. -/
def production_interp (row : Row) : ℕ → ℚ :=
  interp5 (fun y => row.data y)

/-- Per-scenario result: anchored cumulative emissions, unit-converted 2022
production, and discounted cumulative production. -/
structure EPResult where
  emissions : ℚ
  production_2022 : ℚ
  production_discounted : ℚ
deriving DecidableEq

/-- Returns emissions, 2022 coal production, and discounted coal production
for a given scenario (the embedding of `calculate_emissions_and_production`;
a missing (scenario, variable) row is a `LookupError`, embedded as
`Except.error`). -/
def calculate_emissions_and_production (scenario : String) (df_ngfs : List Row)
    (beta : ℚ) : Except String EPResult :=
  let coal_emissions_2022_iea : ℚ := 15.5
  match lookupRow df_ngfs scenario "Emissions|CO2" with
  | none => .error ("no dataset row: " ++ scenario ++ " / Emissions|CO2")
  | some emissions_row =>
    let f_e : ℕ → ℚ := emissions_interp emissions_row
    let total_raw : ℚ := (full_years.map (fun y => f_e y)).sum
    let total_emissions : ℚ := total_raw * (coal_emissions_2022_iea / f_e 2022)
    match lookupRow df_ngfs scenario "Primary Energy|Coal" with
    | none => .error ("no dataset row: " ++ scenario ++ " / Primary Energy|Coal")
    | some production_row =>
      let f_p : ℕ → ℚ := production_interp production_row
      let rho := calculate_rho beta
      let production_discounted : ℚ :=
        (full_years.map (fun y => f_p y * calculate_discount rho (y - 2022))).sum
      .ok { emissions := total_emissions,
            production_2022 := EJ2Mcoal (f_p 2022),
            production_discounted := production_discounted }

/-- The baseline ("current policies") scenario identifier used by the
evaluator. -/
def baseline_scenario : String := "NGFS2_Current Policies"

/-- The policy ("net-zero 2050") scenario identifier used by the
evaluator. -/
def policy_scenario : String := "NGFS2_Net-Zero 2050"

/-- Final evaluation result: avoided emissions, cost, benefit, net
arbitrage, and baseline 2022 coal production. -/
structure CBResult where
  avoided_emissions : ℚ
  cost : ℚ
  benefit : ℚ
  arbitrage : ℚ
  coal_2022 : ℚ
deriving DecidableEq

/-- Computes cost, benefit, and arbitrage opportunity, generalized over the
two scenario identifiers (the source hard-codes `baseline_scenario` and
`policy_scenario`; the generalization lets the equal-identifiers property
be stated). -/
def calculate_cost_and_benefit_scenarios (baseline policy : String)
    (social_cost_of_carbon global_lcoe_average beta : ℚ) (df_ngfs : List Row) :
    Except String CBResult :=
  match calculate_emissions_and_production baseline df_ngfs beta with
  | .error e => .error e
  | .ok ep_cps =>
    match calculate_emissions_and_production policy df_ngfs beta with
    | .error e => .error e
    | .ok ep_nz2050 =>
      let avoided_emissions := ep_cps.emissions - ep_nz2050.emissions
      let discounted_production_increase :=
        ep_cps.production_discounted - ep_nz2050.production_discounted
      let discounted_production_increase_mwh :=
        EJ2MWh discounted_production_increase
      let cost := global_lcoe_average * discounted_production_increase_mwh / 1e12
      let benefit := avoided_emissions * social_cost_of_carbon / 1e3
      .ok { avoided_emissions := avoided_emissions,
            cost := cost,
            benefit := benefit,
            arbitrage := benefit - cost,
            coal_2022 := ep_cps.production_2022 }

/-- Computes cost, benefit, and arbitrage opportunity for the two
hard-coded scenarios (the embedding of `calculate_cost_and_benefit`). -/
def calculate_cost_and_benefit (social_cost_of_carbon global_lcoe_average beta : ℚ)
    (df_ngfs : List Row) : Except String CBResult :=
  calculate_cost_and_benefit_scenarios baseline_scenario policy_scenario
    social_cost_of_carbon global_lcoe_average beta df_ngfs

/-- The parameter chosen for the sweep in the UI section of `main`. -/
inductive SweepChoice where
  | scc
  | lcoe
  | beta
deriving DecidableEq

/-- The embedding of `np.linspace lo hi n`: `n` evenly spaced values from
`lo` to `hi` inclusive. -/
def linspace (lo hi : ℚ) (n : ℕ) : List ℚ :=
  (List.range n).map (fun i => lo + (hi - lo) * i / ((n : ℚ) - 1))

/-- The sweep grid used by `main`: `[10, 200]` for the two price
parameters and `[0, 2]` for beta, 20 points each. -/
def param_values (choice : SweepChoice) : List ℚ :=
  match choice with
  | .scc => linspace 10 200 20
  | .lcoe => linspace 10 200 20
  | .beta => linspace 0 2 20

/-- The sweep loop of `main`: one evaluator call per grid value, the swept
parameter replaced by the grid value and the other two held fixed. -/
def sweep (choice : SweepChoice) (social_cost_of_carbon global_lcoe_average beta : ℚ)
    (df_ngfs : List Row) : List (ℚ × Except String CBResult) :=
  (param_values choice).map (fun val =>
    (val,
      calculate_cost_and_benefit
        (if choice = SweepChoice.scc then val else social_cost_of_carbon)
        (if choice = SweepChoice.lcoe then val else global_lcoe_average)
        (if choice = SweepChoice.beta then val else beta)
        df_ngfs))

/-- Lower end of the declared sweep range for each choice. -/
def sweep_lo : SweepChoice → ℚ
  | .beta => 0
  | _ => 10

/-- Upper end of the declared sweep range for each choice. -/
def sweep_hi : SweepChoice → ℚ
  | .beta => 2
  | _ => 200

/-- Spec-named constant: the risk-free rate used by the discount model. -/
def risk_free_rate : ℚ := 0.0208

/-- Spec-named constant: the credit-spread premium used by the discount
model. -/
def credit_spread_premium : ℚ := 0.0299 - 0.01

/-- Spec-named constant: the leverage weight used by the discount model. -/
def leverage_weight : ℚ := 0.5175273490449868

/-- Spec-named constant: the corporate tax rate used by the discount
model. -/
def tax_rate : ℚ := 0.15

/-- A beta value at which the discount rate is exactly zero; used as a
convenient concrete input when instantiating theorems. -/
def betaW : ℚ :=
  -(0.0208 * (0.5175273490449868 * (1 - 0.15) + (1 - 0.5175273490449868))) /
    ((1 - 0.5175273490449868) * (0.0299 - 0.01))

/-- Concrete baseline emissions row: flat value 1000 in every year
column. -/
def testRowEb : Row :=
  { Scenario := baseline_scenario, Variable := "Emissions|CO2", data := fun _ => 1000 }

/-- Concrete baseline production row: flat value 0 in every year column. -/
def testRowPb : Row :=
  { Scenario := baseline_scenario, Variable := "Primary Energy|Coal", data := fun _ => 0 }

/-- Concrete policy emissions row: flat value 500 in every year column. -/
def testRowEp : Row :=
  { Scenario := policy_scenario, Variable := "Emissions|CO2", data := fun _ => 500 }

/-- Concrete policy production row: flat value 0 in every year column. -/
def testRowPp : Row :=
  { Scenario := policy_scenario, Variable := "Primary Energy|Coal", data := fun _ => 0 }

/-- A concrete well-formed dataset with the four required rows. -/
def testDF : List Row := [testRowEb, testRowPb, testRowEp, testRowPp]

/-- Concrete baseline emissions row whose value is 0 in every year column,
so the interpolated 2022 emissions value is 0. -/
def zeroRowEb : Row :=
  { Scenario := baseline_scenario, Variable := "Emissions|CO2", data := fun _ => 0 }

/-- Concrete baseline production row for the all-zero-emissions dataset. -/
def zeroRowPb : Row :=
  { Scenario := baseline_scenario, Variable := "Primary Energy|Coal", data := fun _ => 100 }

/-- Concrete policy emissions row for the all-zero-emissions dataset. -/
def zeroRowEp : Row :=
  { Scenario := policy_scenario, Variable := "Emissions|CO2", data := fun _ => 0 }

/-- Concrete policy production row for the all-zero-emissions dataset. -/
def zeroRowPp : Row :=
  { Scenario := policy_scenario, Variable := "Primary Energy|Coal", data := fun _ => 100 }

/-- A concrete dataset that contains all four required rows but whose
emissions rows are identically zero. -/
def zeroDF : List Row := [zeroRowEb, zeroRowPb, zeroRowEp, zeroRowPp]

/-- Summing a mapped list over the year horizon equals the `Finset.Icc`
sum over 2023..2100. -/
lemma sum_full_years_map (f : ℕ → ℚ) :
    (full_years.map f).sum = ∑ y in Finset.Icc 2023 2100, f y := by
  rw [Nat.Icc_eq_range']
  rfl

/-- When both required rows of a scenario are present, the per-scenario
computation succeeds and its three fields are the explicit sums built from
the two interpolants. -/
lemma cep_eq_of_rows (scenario : String) (df : List Row) (beta : ℚ)
    (erow prow : Row)
    (he : lookupRow df scenario "Emissions|CO2" = some erow)
    (hp : lookupRow df scenario "Primary Energy|Coal" = some prow) :
    calculate_emissions_and_production scenario df beta = .ok
      { emissions :=
          ((full_years.map (fun y => emissions_interp erow y)).sum) *
            (15.5 / emissions_interp erow 2022),
        production_2022 := EJ2Mcoal (production_interp prow 2022),
        production_discounted :=
          (full_years.map (fun y =>
            production_interp prow y *
              calculate_discount (calculate_rho beta) (y - 2022))).sum } := by
  unfold calculate_emissions_and_production
  rw [he, hp]

/-- When the emissions row of a scenario is absent, the per-scenario
computation fails. -/
lemma cep_error_no_emissions (scenario : String) (df : List Row) (beta : ℚ)
    (he : lookupRow df scenario "Emissions|CO2" = none) :
    calculate_emissions_and_production scenario df beta =
      .error ("no dataset row: " ++ scenario ++ " / Emissions|CO2") := by
  unfold calculate_emissions_and_production
  rw [he]

/-- When the production row of a scenario is absent (but its emissions row
is present), the per-scenario computation fails. -/
lemma cep_error_no_production (scenario : String) (df : List Row) (beta : ℚ)
    (erow : Row)
    (he : lookupRow df scenario "Emissions|CO2" = some erow)
    (hp : lookupRow df scenario "Primary Energy|Coal" = none) :
    calculate_emissions_and_production scenario df beta =
      .error ("no dataset row: " ++ scenario ++ " / Primary Energy|Coal") := by
  unfold calculate_emissions_and_production
  rw [he, hp]

/-- If no dataset row carries the requested scenario identifier, every row
lookup for that scenario fails. -/
lemma lookupRow_eq_none_of_no_scenario (df : List Row) (scenario varname : String)
    (h : ∀ r ∈ df, ¬ r.Scenario = scenario) :
    lookupRow df scenario varname = none := by
  unfold lookupRow
  have hfil : df.filter (fun r => r.Scenario == scenario) = [] := by
    rw [List.filter_eq_nil_iff]
    intro r hr
    simpa using h r hr
  rw [hfil]
  rfl

/-- C6: for every beta, the discount-rate function returns
`rho = leverage_weight * risk_free_rate * (1 - tax_rate)
     + (1 - leverage_weight) * (risk_free_rate + beta * credit_spread_premium)`
with `risk_free_rate = 0.0208`, `credit_spread_premium = 0.0299 - 0.01`,
and `tax_rate = 0.15`. -/
theorem rho_matches_spec_formula (beta : ℚ) :
    calculate_rho beta =
      leverage_weight * risk_free_rate * (1 - tax_rate) +
        (1 - leverage_weight) * (risk_free_rate + beta * credit_spread_premium) ∧
    risk_free_rate = 0.0208 ∧
    credit_spread_premium = 0.0299 - 0.01 ∧
    tax_rate = 0.15 :=
  ⟨rfl, rfl, rfl, rfl⟩

/-- C7: the discount rate is monotonically non-decreasing in beta on
`[0, 2]`, and at beta = 0 it equals
`leverage_weight * risk_free_rate * (1 - tax_rate)
  + (1 - leverage_weight) * risk_free_rate`. -/
theorem rho_monotone_and_value_at_zero (beta1 beta2 : ℚ)
    (h0 : 0 ≤ beta1) (h12 : beta1 ≤ beta2) (h2 : beta2 ≤ 2) :
    calculate_rho beta1 ≤ calculate_rho beta2 ∧
    calculate_rho 0 =
      leverage_weight * risk_free_rate * (1 - tax_rate) +
        (1 - leverage_weight) * risk_free_rate := by
  constructor
  · unfold calculate_rho
    nlinarith [h12]
  · norm_num [calculate_rho, leverage_weight, risk_free_rate, tax_rate]

/-- Witness for C7 at the endpoints of the declared beta range. -/
theorem rho_monotone_and_value_at_zero_witness :
    calculate_rho 0 ≤ calculate_rho 2 ∧
    calculate_rho 0 =
      leverage_weight * risk_free_rate * (1 - tax_rate) +
        (1 - leverage_weight) * risk_free_rate :=
  rho_monotone_and_value_at_zero 0 2 le_rfl (by norm_num) le_rfl

/-- C10: the avoided-emissions and baseline-2022-production fields of the
evaluation result do not depend on the social cost of carbon or the LCOE
price parameter; two runs on the same dataset and beta agree on them. -/
theorem price_parameters_noninterference (scc1 lcoe1 scc2 lcoe2 beta : ℚ)
    (df : List Row) :
    (calculate_cost_and_benefit scc1 lcoe1 beta df).map
      (fun r => (r.avoided_emissions, r.coal_2022)) =
    (calculate_cost_and_benefit scc2 lcoe2 beta df).map
      (fun r => (r.avoided_emissions, r.coal_2022)) := by
  unfold calculate_cost_and_benefit calculate_cost_and_benefit_scenarios
  cases calculate_emissions_and_production baseline_scenario df beta <;>
    cases calculate_emissions_and_production policy_scenario df beta <;> rfl

/-- C5: if the baseline and policy scenario identifiers are set equal, then
every evaluation result has avoided_emissions, cost, benefit, and
arbitrage all exactly zero. -/
theorem equal_scenarios_all_zero (s : String) (scc lcoe beta : ℚ) (df : List Row)
    (r : CBResult)
    (h : calculate_cost_and_benefit_scenarios s s scc lcoe beta df = .ok r) :
    r.avoided_emissions = 0 ∧ r.cost = 0 ∧ r.benefit = 0 ∧ r.arbitrage = 0 := by
  unfold calculate_cost_and_benefit_scenarios at h
  cases hc : calculate_emissions_and_production s df beta with
  | error e =>
    rw [hc] at h
    exact absurd h (by simp)
  | ok epv =>
    rw [hc] at h
    simp only [Except.ok.injEq] at h
    subst h
    refine ⟨sub_self _, ?_, ?_, ?_⟩ <;> simp [EJ2MWh]

set_option maxRecDepth 100000 in
/-- Witness for C5 on a concrete dataset with baseline and policy
identifiers both set to the baseline scenario. -/
theorem equal_scenarios_all_zero_witness :
    (⟨0, 0, 0, 0, 0⟩ : CBResult).avoided_emissions = 0 ∧
    (⟨0, 0, 0, 0, 0⟩ : CBResult).cost = 0 ∧
    (⟨0, 0, 0, 0, 0⟩ : CBResult).benefit = 0 ∧
    (⟨0, 0, 0, 0, 0⟩ : CBResult).arbitrage = 0 :=
  equal_scenarios_all_zero baseline_scenario 80 59 betaW testDF ⟨0, 0, 0, 0, 0⟩
    (by with_unfolding_all rfl)

/-- C1: whenever both per-scenario extractions succeed, the evaluator
returns avoided_emissions = emissions(baseline) - emissions(policy),
cost = lcoe * EJ2MWh(discounted_production(baseline) -
discounted_production(policy)) / 1e12, benefit = avoided_emissions *
social_cost_of_carbon / 1e3, and arbitrage = benefit - cost. -/
theorem evaluator_returns_spec_formulas
    (social_cost_of_carbon global_lcoe_average beta : ℚ) (df : List Row)
    (eb ep : EPResult)
    (hb : calculate_emissions_and_production baseline_scenario df beta = .ok eb)
    (hp : calculate_emissions_and_production policy_scenario df beta = .ok ep) :
    calculate_cost_and_benefit social_cost_of_carbon global_lcoe_average beta df =
      .ok
        { avoided_emissions := eb.emissions - ep.emissions,
          cost := global_lcoe_average *
            EJ2MWh (eb.production_discounted - ep.production_discounted) / 1e12,
          benefit := (eb.emissions - ep.emissions) * social_cost_of_carbon / 1e3,
          arbitrage :=
            (eb.emissions - ep.emissions) * social_cost_of_carbon / 1e3 -
              global_lcoe_average *
                EJ2MWh (eb.production_discounted - ep.production_discounted) / 1e12,
          coal_2022 := eb.production_2022 } := by
  unfold calculate_cost_and_benefit calculate_cost_and_benefit_scenarios
  rw [hb, hp]

set_option maxRecDepth 100000 in
/-- Witness for C1 on a concrete dataset whose flat rows make both
per-scenario results explicit. -/
theorem evaluator_returns_spec_formulas_witness :
    calculate_cost_and_benefit 80 59 betaW testDF = .ok
      { avoided_emissions := (1209 : ℚ) - 1209,
        cost := 59 * EJ2MWh ((0 : ℚ) - 0) / 1e12,
        benefit := ((1209 : ℚ) - 1209) * 80 / 1e3,
        arbitrage := ((1209 : ℚ) - 1209) * 80 / 1e3 -
          59 * EJ2MWh ((0 : ℚ) - 0) / 1e12,
        coal_2022 := (0 : ℚ) } :=
  evaluator_returns_spec_formulas 80 59 betaW testDF
    { emissions := 1209, production_2022 := 0, production_discounted := 0 }
    { emissions := 1209, production_2022 := 0, production_discounted := 0 }
    (by with_unfolding_all rfl) (by with_unfolding_all rfl)

/-- C4: when no dataset row matches the requested scenario identifier, or
no row of that scenario matches one of the two requested variable names,
extraction returns an error rather than any default result. -/
theorem extraction_missing_row_errors (scenario : String) (df : List Row)
    (beta : ℚ)
    (h : (∀ r ∈ df, ¬ r.Scenario = scenario) ∨
      lookupRow df scenario "Emissions|CO2" = none ∨
      lookupRow df scenario "Primary Energy|Coal" = none) :
    ∃ msg, calculate_emissions_and_production scenario df beta = .error msg := by
  rcases h with h | h | h
  · exact ⟨_, cep_error_no_emissions scenario df beta
      (lookupRow_eq_none_of_no_scenario df scenario "Emissions|CO2" h)⟩
  · exact ⟨_, cep_error_no_emissions scenario df beta h⟩
  · cases he : lookupRow df scenario "Emissions|CO2" with
    | none => exact ⟨_, cep_error_no_emissions scenario df beta he⟩
    | some erow => exact ⟨_, cep_error_no_production scenario df beta erow he h⟩

set_option maxRecDepth 100000 in
/-- Witness for C4: a scenario identifier absent from the concrete dataset
produces an extraction error. -/
theorem extraction_missing_row_errors_witness :
    ∃ msg, calculate_emissions_and_production "No Such Scenario" testDF 1 =
      .error msg :=
  extraction_missing_row_errors "No Such Scenario" testDF 1
    (Or.inl (of_decide_eq_true (by with_unfolding_all rfl)))

/-- C2: the cumulative-emissions result equals the sum of interpolated
annual emissions over the 78 integer years 2023..2100 inclusive, rescaled
by `15.5 / interpolated_emissions(2022)`; equivalently, the returned total
divided by the raw un-anchored interpolated sum equals
`15.5 / interpolated_value_at_2022` whenever that raw sum is nonzero. -/
theorem integrator_emissions_anchor (scenario : String) (df : List Row)
    (beta : ℚ) (erow : Row)
    (he : lookupRow df scenario "Emissions|CO2" = some erow)
    (ep : EPResult)
    (hep : calculate_emissions_and_production scenario df beta = .ok ep) :
    (Finset.Icc 2023 2100).card = 78 ∧
    ep.emissions =
      (∑ y in Finset.Icc 2023 2100, emissions_interp erow y) *
        (15.5 / emissions_interp erow 2022) ∧
    ((∑ y in Finset.Icc 2023 2100, emissions_interp erow y) ≠ 0 →
      ep.emissions / (∑ y in Finset.Icc 2023 2100, emissions_interp erow y) =
        15.5 / emissions_interp erow 2022) := by
  cases hprod : lookupRow df scenario "Primary Energy|Coal" with
  | none =>
    rw [cep_error_no_production scenario df beta erow he hprod] at hep
    exact absurd hep (by simp)
  | some prow =>
    rw [cep_eq_of_rows scenario df beta erow prow he hprod] at hep
    simp only [Except.ok.injEq] at hep
    subst hep
    have hsum := sum_full_years_map (fun y => emissions_interp erow y)
    refine ⟨by norm_num [Nat.card_Icc], ?_, ?_⟩
    · dsimp only
      rw [hsum]
    · intro hne
      dsimp only
      rw [hsum, mul_comm, mul_div_assoc, div_self hne, mul_one]

set_option maxRecDepth 100000 in
/-- Witness for C2 on the concrete dataset: the anchored total for the
flat baseline emissions row is 1209. -/
theorem integrator_emissions_anchor_witness :
    (Finset.Icc 2023 2100).card = 78 ∧
    (⟨1209, 0, 0⟩ : EPResult).emissions =
      (∑ y in Finset.Icc 2023 2100, emissions_interp testRowEb y) *
        (15.5 / emissions_interp testRowEb 2022) ∧
    ((∑ y in Finset.Icc 2023 2100, emissions_interp testRowEb y) ≠ 0 →
      (⟨1209, 0, 0⟩ : EPResult).emissions /
          (∑ y in Finset.Icc 2023 2100, emissions_interp testRowEb y) =
        15.5 / emissions_interp testRowEb 2022) :=
  integrator_emissions_anchor baseline_scenario testDF betaW testRowEb
    (by with_unfolding_all rfl) ⟨1209, 0, 0⟩ (by with_unfolding_all rfl)

/-- C3: the discounted cumulative production result equals the sum over
integer years 2023..2100 of `production(y) * (1 + rho) ^ -(y - 2022)`,
where `production` is the piecewise-linear interpolant of the scenario's
coal-production row and `rho` is the discount rate derived from beta. -/
theorem integrator_discounted_production (scenario : String) (df : List Row)
    (beta : ℚ) (prow : Row)
    (hp : lookupRow df scenario "Primary Energy|Coal" = some prow)
    (ep : EPResult)
    (hep : calculate_emissions_and_production scenario df beta = .ok ep) :
    ep.production_discounted =
      ∑ y in Finset.Icc 2023 2100,
        production_interp prow y *
          (1 + calculate_rho beta) ^ (-((y : ℤ) - 2022)) := by
  cases hem : lookupRow df scenario "Emissions|CO2" with
  | none =>
    rw [cep_error_no_emissions scenario df beta hem] at hep
    exact absurd hep (by simp)
  | some erow =>
    rw [cep_eq_of_rows scenario df beta erow prow hem hp] at hep
    simp only [Except.ok.injEq] at hep
    subst hep
    dsimp only
    rw [sum_full_years_map]
    refine Finset.sum_congr rfl ?_
    intro y hy
    have h2023 : 2023 ≤ y := (Finset.mem_Icc.mp hy).1
    have hcast : (-((y - 2022 : ℕ) : ℤ)) = -((y : ℤ) - 2022) := by omega
    unfold calculate_discount
    rw [hcast]

set_option maxRecDepth 100000 in
/-- Witness for C3 on the concrete dataset: the flat-zero production row
gives discounted cumulative production 0. -/
theorem integrator_discounted_production_witness :
    (⟨1209, 0, 0⟩ : EPResult).production_discounted =
      ∑ y in Finset.Icc 2023 2100,
        production_interp testRowPb y *
          (1 + calculate_rho betaW) ^ (-((y : ℤ) - 2022)) :=
  integrator_discounted_production baseline_scenario testDF betaW testRowPb
    (by with_unfolding_all rfl) ⟨1209, 0, 0⟩ (by with_unfolding_all rfl)

set_option maxRecDepth 1000000 in
/-- C8: a sweep over any of the three parameters returns exactly 20
(grid value, result) pairs, strictly ascending in the swept value,
spanning the declared range inclusive of both endpoints, and each result
is one evaluator call at that grid point with the non-swept parameters
held constant. -/
theorem sweep_layout (choice : SweepChoice)
    (social_cost_of_carbon global_lcoe_average beta : ℚ) (df : List Row) :
    (sweep choice social_cost_of_carbon global_lcoe_average beta df).length = 20 ∧
    ((sweep choice social_cost_of_carbon global_lcoe_average beta df).map
      Prod.fst).Pairwise (fun a b => a < b) ∧
    ((sweep choice social_cost_of_carbon global_lcoe_average beta df).map
      Prod.fst).head? = some (sweep_lo choice) ∧
    ((sweep choice social_cost_of_carbon global_lcoe_average beta df).map
      Prod.fst).getLast? = some (sweep_hi choice) ∧
    ∀ p ∈ sweep choice social_cost_of_carbon global_lcoe_average beta df,
      p.2 = calculate_cost_and_benefit
        (if choice = SweepChoice.scc then p.1 else social_cost_of_carbon)
        (if choice = SweepChoice.lcoe then p.1 else global_lcoe_average)
        (if choice = SweepChoice.beta then p.1 else beta) df := by
  have hfst : (sweep choice social_cost_of_carbon global_lcoe_average beta df).map
      Prod.fst = param_values choice := by
    unfold sweep
    rw [List.map_map]
    exact List.map_id _
  refine ⟨?_, ?_, ?_, ?_, ?_⟩
  · have hlen := congrArg List.length hfst
    rw [List.length_map] at hlen
    rw [hlen]
    cases choice <;> rfl
  · rw [hfst]
    cases choice <;> exact of_decide_eq_true (by with_unfolding_all rfl)
  · rw [hfst]
    cases choice <;> exact of_decide_eq_true (by with_unfolding_all rfl)
  · rw [hfst]
    cases choice <;> exact of_decide_eq_true (by with_unfolding_all rfl)
  · intro p hp
    simp only [sweep, List.mem_map] at hp
    obtain ⟨v, hv, rfl⟩ := hp
    rfl

/-- C9 counterexample: a dataset that contains all four required rows yet
whose interpolated 2022 emissions value is zero, so the anchoring division
`15.5 / interpolated_2022_emissions` is a division by zero. -/
theorem anchor_division_by_zero_counterexample :
    lookupRow zeroDF baseline_scenario "Emissions|CO2" = some zeroRowEb ∧
    lookupRow zeroDF baseline_scenario "Primary Energy|Coal" = some zeroRowPb ∧
    lookupRow zeroDF policy_scenario "Emissions|CO2" = some zeroRowEp ∧
    lookupRow zeroDF policy_scenario "Primary Energy|Coal" = some zeroRowPp ∧
    emissions_interp zeroRowEb 2022 = 0 := by
  refine ⟨?_, ?_, ?_, ?_, ?_⟩ <;> with_unfolding_all rfl

/-- C9 (amended): when the required rows are present, the interpolated
2022 emissions value of each scenario is nonzero, and `1 + rho` is
nonzero, every divisor appearing in the pipeline is nonzero and the
evaluator returns a result: no runtime failure occurs beyond lookup
failure. -/
theorem pipeline_total_and_divisors_nonzero (df : List Row)
    (social_cost_of_carbon global_lcoe_average beta : ℚ)
    (ebrow pbrow eprow pprow : Row)
    (h1 : lookupRow df baseline_scenario "Emissions|CO2" = some ebrow)
    (h2 : lookupRow df baseline_scenario "Primary Energy|Coal" = some pbrow)
    (h3 : lookupRow df policy_scenario "Emissions|CO2" = some eprow)
    (h4 : lookupRow df policy_scenario "Primary Energy|Coal" = some pprow)
    (hz1 : emissions_interp ebrow 2022 ≠ 0)
    (hz2 : emissions_interp eprow 2022 ≠ 0)
    (hz3 : 1 + calculate_rho beta ≠ 0) :
    (∃ r, calculate_cost_and_benefit social_cost_of_carbon global_lcoe_average
      beta df = .ok r) ∧
    emissions_interp ebrow 2022 ≠ 0 ∧
    emissions_interp eprow 2022 ≠ 0 ∧
    (∀ y ∈ Finset.Icc 2023 2100,
      (1 + calculate_rho beta) ^ ((y : ℤ) - 2022) ≠ 0) ∧
    (1e3 : ℚ) ≠ 0 ∧ (5 : ℚ) ≠ 0 ∧ (3600 : ℚ) ≠ 0 ∧ (1e6 : ℚ) ≠ 0 ∧
    (29.3076 : ℚ) ≠ 0 ∧ (1e12 : ℚ) ≠ 0 := by
  refine ⟨?_, hz1, hz2, ?_, by norm_num, by norm_num, by norm_num, by norm_num,
    by norm_num, by norm_num⟩
  · unfold calculate_cost_and_benefit calculate_cost_and_benefit_scenarios
    rw [cep_eq_of_rows baseline_scenario df beta ebrow pbrow h1 h2,
      cep_eq_of_rows policy_scenario df beta eprow pprow h3 h4]
    exact ⟨_, rfl⟩
  · intro y hy
    exact zpow_ne_zero _ hz3

set_option maxRecDepth 100000 in
/-- Witness for the amended C9 on the concrete dataset. -/
theorem pipeline_total_and_divisors_nonzero_witness :
    (∃ r, calculate_cost_and_benefit 80 59 betaW testDF = .ok r) ∧
    emissions_interp testRowEb 2022 ≠ 0 ∧
    emissions_interp testRowEp 2022 ≠ 0 ∧
    (∀ y ∈ Finset.Icc 2023 2100,
      (1 + calculate_rho betaW) ^ ((y : ℤ) - 2022) ≠ 0) ∧
    (1e3 : ℚ) ≠ 0 ∧ (5 : ℚ) ≠ 0 ∧ (3600 : ℚ) ≠ 0 ∧ (1e6 : ℚ) ≠ 0 ∧
    (29.3076 : ℚ) ≠ 0 ∧ (1e12 : ℚ) ≠ 0 :=
  pipeline_total_and_divisors_nonzero testDF 80 59 betaW
    testRowEb testRowPb testRowEp testRowPp
    (by with_unfolding_all rfl) (by with_unfolding_all rfl)
    (by with_unfolding_all rfl) (by with_unfolding_all rfl)
    (of_decide_eq_true (by with_unfolding_all rfl))
    (of_decide_eq_true (by with_unfolding_all rfl))
    (of_decide_eq_true (by with_unfolding_all rfl))

end CarbonArb
